import Mathlib

/-!
Shallow embedding of the shrimp-backend JSON document repository
(`src/shrimp/services/json_document_service.py` and
`src/shrimp/models/json_document.py`).

The MongoDB collection is modelled as a `List Doc`; each service method is a
pure function from the collection (plus its arguments and an explicit clock
value `now : Nat` standing for `datetime.now()`) to a `ServiceResponse`, the
collection after the call, and the list of store operations the method issued.
MongoDB datetimes are modelled as `Nat`; a document's `content` field is
modelled by its serialized textual form (the `$toString` the service applies
before regex matching).
-/

namespace Shrimp

/-- `bson.ObjectId.is_valid` on a string: exactly 24 hexadecimal characters. -/
def isHexChar (c : Char) : Bool :=
  c.isDigit || ('a' ≤ c && c ≤ 'f') || ('A' ≤ c && c ≤ 'F')

/-- Identifier well-formedness check used before any store lookup
(`ObjectId.is_valid(document_id)`). -/
def isValidObjectId (s : String) : Bool :=
  s.length == 24 && s.data.all isHexChar

/-- `DocumentType` enumeration from `shrimp/models/json_document.py`. -/
inductive DocumentType where
  | agent_component_model
  | session_state
  | other
deriving DecidableEq, Repr

/-- The string value of each enum member (it is a `str`-valued enum). -/
def DocumentType.value : DocumentType → String
  | .agent_component_model => "agent_component_model"
  | .session_state => "session_state"
  | .other => "other"

/-- `[t.value for t in DocumentType]` — the closed list of admissible
document-type strings. -/
def documentTypeValues : List String :=
  [DocumentType.agent_component_model.value, DocumentType.session_state.value,
   DocumentType.other.value]

/-- A stored JSON document (`JsonDocument`), as kept in the
`json_documents` collection.  `content` is its serialized textual form and
timestamps are `Nat`. -/
structure Doc where
  id : String
  project_id : String
  name : String
  description : Option String := none
  document_type : String := DocumentType.other.value
  content : String
  session_id : String
  tags : List String := []
  metadata : List (String × String) := []
  is_public : Bool := false
  schema_validation : Option String := none
  created_at : Nat := 0
  updated_at : Nat := 0
  created_by : String := "system"
  updated_by : String := "system"
  access_count : Nat := 0
  last_accessed_at : Option Nat := none
deriving DecidableEq, Repr

/-- `ServiceResponse` from `shrimp/core/response.py`: a tagged result
distinguishing success, validation failure, not-found and internal failure. -/
inductive ServiceResponse (α : Type) where
  | success_response (data : α) (message : String)
  | validation_error (message : String)
  | not_found (message : String)
  | error_response (message : String)
deriving DecidableEq, Repr

/-- The store operations a service method can issue, recorded as a trace. -/
inductive StoreOp where
  | insertOne
  | findOne (document_id project_id : String)
  | findMany (project_id : String)
  | updateOne (document_id : String)
  | updateMany (project_id : String)
  | deleteOne (document_id : String)
  | deleteMany (project_id : String)
  | aggregate (project_id : String)
deriving DecidableEq, Repr

/-- The `find_one` filter of `get_document` / `delete_document`:
`{"_id": ObjectId(document_id), "project_id": project_id}`. -/
def getPred (project_id document_id : String) (d : Doc) : Bool :=
  d.id == document_id && d.project_id == project_id

/-- The `$inc`/`$set` update applied on an access-counted read:
`{"$inc": {"access_count": 1}, "$set": {"last_accessed_at": now}}`. -/
def bumpAccess (now : Nat) (d : Doc) : Doc :=
  { d with access_count := d.access_count + 1, last_accessed_at := some now }

/-- Mongo `update_one`: apply `f` to the first document matching `p`. -/
def updateFirst (p : Doc → Bool) (f : Doc → Doc) : List Doc → List Doc
  | [] => []
  | x :: xs => if p x then f x :: xs else x :: updateFirst p f xs

/-- Mongo `delete_one`: remove the first document matching `p`. -/
def removeFirst (p : Doc → Bool) : List Doc → List Doc
  | [] => []
  | x :: xs => if p x then xs else x :: removeFirst p xs

/-- Outcome of a service method: response, collection after the call, and the
trace of store operations issued. -/
structure CallResult (α : Type) where
  resp : ServiceResponse α
  store : List Doc
  trace : List StoreOp
deriving Repr

/-- `JsonDocumentService.get_document`.  Checks identifier well-formedness,
looks the document up scoped by both `_id` and `project_id`, and — when
`increment_access` is true — issues a second, separate `update_one` call
(filtered by `_id` only) that increments `access_count` and sets
`last_accessed_at`, then returns the read value with the increment
re-applied caller-side. -/
def get_document (docs : List Doc) (project_id document_id : String)
    (increment_access : Bool) (now : Nat) : CallResult Doc :=
  if isValidObjectId document_id then
    match docs.find? (getPred project_id document_id) with
    | none =>
        ⟨.not_found "文档不存在", docs, [StoreOp.findOne document_id project_id]⟩
    | some d =>
        if increment_access then
          ⟨.success_response (bumpAccess now d) "获取文档成功",
           updateFirst (fun x => x.id == document_id) (bumpAccess now) docs,
           [StoreOp.findOne document_id project_id, StoreOp.updateOne document_id]⟩
        else
          ⟨.success_response d "获取文档成功", docs,
           [StoreOp.findOne document_id project_id]⟩
  else
    ⟨.validation_error "无效的文档ID", docs, []⟩

/-- `N` sequential calls of `get_document` with `increment_access = true`,
threading the store through. -/
def getIter (project_id document_id : String) (now : Nat) :
    Nat → List Doc → List Doc
  | 0, docs => docs
  | n + 1, docs =>
      getIter project_id document_id now n
        (get_document docs project_id document_id true now).store

/-- `JsonDocumentService.delete_document`: identifier check, scoped existence
check, then `delete_one` filtered by `_id` alone. -/
def delete_document (docs : List Doc) (project_id document_id : String) :
    CallResult Bool :=
  if isValidObjectId document_id then
    match docs.find? (getPred project_id document_id) with
    | none =>
        ⟨.not_found "文档不存在", docs, [StoreOp.findOne document_id project_id]⟩
    | some _ =>
        ⟨.success_response true "文档删除成功",
         removeFirst (fun x => x.id == document_id) docs,
         [StoreOp.findOne document_id project_id, StoreOp.deleteOne document_id]⟩
  else
    ⟨.validation_error "无效的文档ID", docs, []⟩

/-- Substring test on character lists: does `hay` contain `needle` as a
contiguous run?  Models a regex match whose pattern went through
`re.escape` (every character matched literally). -/
def listContainsSub (needle : List Char) : List Char → Bool
  | [] => needle.isEmpty
  | c :: t => needle.isPrefixOf (c :: t) || listContainsSub needle t

/-- Mongo `$regexMatch` with `re.escape`d pattern and the `"i"` option:
case-insensitive literal substring of `input`. -/
def regexMatchCI (input pat : String) : Bool :=
  listContainsSub (pat.data.map Char.toLower) (input.data.map Char.toLower)

/-- `JsonDocumentQuery` from `shrimp/models/json_document.py`. -/
structure JsonDocumentQuery where
  name_pattern : Option String := none
  document_type : Option DocumentType := none
  session_id : Option String := none
  tags : Option (List String) := none
  is_public : Option Bool := none
  content_search : Option String := none
  created_after : Option Nat := none
  created_before : Option Nat := none
  updated_after : Option Nat := none
  updated_before : Option Nat := none
  skip : Nat := 0
  limit : Nat := 20
  sort_by : String := "updated_at"
  sort_order : Int := -1
deriving DecidableEq, Repr

/-- The Mongo filter `list_documents` builds.  Each clause is added only when
the corresponding query field is truthy in Python (`None`, `""` and `[]` are
falsy and add no clause); `is_public` is compared against `None` explicitly. -/
def listQueryPred (project_id : String) (q : JsonDocumentQuery) (d : Doc) : Bool :=
  d.project_id == project_id
  && (match q.name_pattern with
      | some p => p == "" || regexMatchCI d.name p
      | none => true)
  && (match q.document_type with
      | some t => d.document_type == t.value
      | none => true)
  && (match q.session_id with
      | some s => s == "" || d.session_id == s
      | none => true)
  && (match q.tags with
      | some ts => ts.isEmpty || d.tags.any (fun t => ts.contains t)
      | none => true)
  && (match q.is_public with
      | some b => d.is_public == b
      | none => true)
  && (match q.content_search with
      | some cs => cs == "" || regexMatchCI d.content cs
      | none => true)
  && (match q.created_after with | some a => decide (a ≤ d.created_at) | none => true)
  && (match q.created_before with | some b => decide (d.created_at ≤ b) | none => true)
  && (match q.updated_after with | some a => decide (a ≤ d.updated_at) | none => true)
  && (match q.updated_before with | some b => decide (d.updated_at ≤ b) | none => true)

/-- Ascending comparison on the named sort field (the document fields a Mongo
sort key can name in this service; an unknown field imposes no order). -/
def docFieldLe (field : String) (a b : Doc) : Bool :=
  if field == "created_at" then decide (a.created_at ≤ b.created_at)
  else if field == "updated_at" then decide (a.updated_at ≤ b.updated_at)
  else if field == "access_count" then decide (a.access_count ≤ b.access_count)
  else if field == "name" then decide (a.name ≤ b.name)
  else true

/-- `cursor.sort(sort_by, sort_order)`: `1` ascending, otherwise descending. -/
def sortDocs (sort_by : String) (sort_order : Int) (docs : List Doc) : List Doc :=
  docs.mergeSort (fun a b =>
    if sort_order == 1 then docFieldLe sort_by a b else docFieldLe sort_by b a)

/-- `JsonDocumentService.list_documents`: filter, sort, then
`skip`/`limit` pagination.  Read-only. -/
def list_documents (docs : List Doc) (project_id : String)
    (q : JsonDocumentQuery) : CallResult (List Doc) :=
  let matched := docs.filter (listQueryPred project_id q)
  let page := ((sortDocs q.sort_by q.sort_order matched).drop q.skip).take q.limit
  ⟨.success_response page ("找到 " ++ toString page.length ++ " 个文档"),
   docs, [StoreOp.findMany project_id]⟩

/-- The Mongo filter `search_documents_by_content` builds: project scope, an
optional type clause, and one case-insensitive escaped-regex clause per
search term over the stringified content (conjunctive via `$and`). -/
def searchPred (project_id : String) (document_type : Option DocumentType)
    (search_terms : List String) (d : Doc) : Bool :=
  d.project_id == project_id
  && (match document_type with
      | some t => d.document_type == t.value
      | none => true)
  && search_terms.all (fun term => regexMatchCI d.content term)

/-- `JsonDocumentService.search_documents_by_content`: conjunctive
content search, sorted by `updated_at` descending, truncated to `limit`. -/
def search_documents_by_content (docs : List Doc) (project_id : String)
    (search_terms : List String) (document_type : Option DocumentType)
    (limit : Nat) : CallResult (List Doc) :=
  let matched := docs.filter (searchPred project_id document_type search_terms)
  let page := (matched.mergeSort (fun a b => decide (b.updated_at ≤ a.updated_at))).take limit
  ⟨.success_response page ("搜索到 " ++ toString page.length ++ " 个相关文档"),
   docs, [StoreOp.findMany project_id]⟩

/-- The session-scoped filter used by the session operations. -/
def matchSession (project_id session_id : String) (d : Doc) : Bool :=
  d.project_id == project_id && d.session_id == session_id

/-- `JsonDocumentService.get_documents_by_session`. -/
def get_documents_by_session (docs : List Doc) (project_id session_id : String)
    (document_type : Option DocumentType) (skip limit : Nat)
    (sort_by : String) (sort_order : Int) : CallResult (List Doc) :=
  let matched := docs.filter (fun d =>
    matchSession project_id session_id d
    && (match document_type with
        | some t => d.document_type == t.value
        | none => true))
  let page := ((sortDocs sort_by sort_order matched).drop skip).take limit
  ⟨.success_response page
     ("找到会话 " ++ session_id ++ " 的 " ++ toString page.length ++ " 个文档"),
   docs, [StoreOp.findMany project_id]⟩

/-- One step of the type-distribution accumulation (a Python dict
`type_distribution[t] = type_distribution.get(t, 0) + 1`). -/
def bumpCount (acc : List (String × Nat)) (t : String) : List (String × Nat) :=
  if acc.any (fun p => p.1 == t) then
    acc.map (fun p => if p.1 == t then (p.1, p.2 + 1) else p)
  else
    acc ++ [(t, 1)]

/-- Frequency distribution of the pushed `document_type` values. -/
def typeDistribution (types : List String) : List (String × Nat) :=
  types.foldl bumpCount []

/-- Payload of `get_document_statistics`. -/
structure ProjectStats where
  total_documents : Nat
  total_access_count : Nat
  public_documents : Nat
  private_documents : Nat
  type_distribution : List (String × Nat)
deriving DecidableEq, Repr

/-- The `$group` reduction of `get_document_statistics` over the
project-scoped set: both `public_documents` and `private_documents` are
summed `$cond` counters on `is_public`. -/
def projectStatsOf (docs : List Doc) (project_id : String) : ProjectStats :=
  let g := docs.filter (fun d => d.project_id == project_id)
  if g.isEmpty then
    ⟨0, 0, 0, 0, []⟩
  else
    ⟨g.length, (g.map Doc.access_count).sum,
     (g.filter (fun d => d.is_public == true)).length,
     (g.filter (fun d => d.is_public == false)).length,
     typeDistribution (g.map Doc.document_type)⟩

/-- `JsonDocumentService.get_document_statistics`. -/
def get_document_statistics (docs : List Doc) (project_id : String) :
    CallResult ProjectStats :=
  ⟨.success_response (projectStatsOf docs project_id) "获取统计信息成功",
   docs, [StoreOp.aggregate project_id]⟩

/-- Payload of `get_session_statistics`.  The empty-group early return carries
no `session_id` key, hence the `Option`. -/
structure SessionStats where
  session_id : Option String
  total_documents : Nat
  total_access_count : Nat
  public_documents : Nat
  private_documents : Nat
  type_distribution : List (String × Nat)
  first_created : Option Nat
  last_updated : Option Nat
deriving DecidableEq, Repr

/-- The `$group` reduction of `get_session_statistics` over the
project-and-session-scoped set: `private_documents` is computed by
subtraction from the total. -/
def sessionStatsOf (docs : List Doc) (project_id session_id : String) :
    SessionStats :=
  let g := docs.filter (matchSession project_id session_id)
  if g.isEmpty then
    ⟨none, 0, 0, 0, 0, [], none, none⟩
  else
    let total := g.length
    let pub := (g.filter (fun d => d.is_public == true)).length
    ⟨some session_id, total, (g.map Doc.access_count).sum, pub, total - pub,
     typeDistribution (g.map Doc.document_type),
     (g.map Doc.created_at).min?, (g.map Doc.updated_at).max?⟩

/-- `JsonDocumentService.get_session_statistics`. -/
def get_session_statistics (docs : List Doc) (project_id session_id : String) :
    CallResult SessionStats :=
  ⟨.success_response (sessionStatsOf docs project_id session_id)
     ("获取会话 " ++ session_id ++ " 统计信息成功"),
   docs, [StoreOp.aggregate project_id]⟩

/-- Payload of `delete_session_documents`.  The no-documents early return
carries only `deleted_count` and `session_id`. -/
structure SessionDeleteData where
  deleted_count : Nat
  session_id : String
  documents_deleted : Option (List String)
deriving DecidableEq, Repr

/-- `JsonDocumentService.delete_session_documents`: find the session's
documents; when none exist, return success with a zero count and issue no
delete; otherwise `delete_many` on the same filter. -/
def delete_session_documents (docs : List Doc) (project_id session_id : String) :
    CallResult SessionDeleteData :=
  let matched := docs.filter (matchSession project_id session_id)
  if matched.isEmpty then
    ⟨.success_response ⟨0, session_id, none⟩
       ("会话 " ++ session_id ++ " 中没有找到文档"),
     docs, [StoreOp.findMany project_id]⟩
  else
    ⟨.success_response ⟨matched.length, session_id, some (matched.map Doc.id)⟩
       ("成功删除会话 " ++ session_id ++ " 的 " ++ toString matched.length ++ " 个文档"),
     docs.filter (fun d => ! matchSession project_id session_id d),
     [StoreOp.findMany project_id, StoreOp.deleteMany project_id]⟩

/-- The `parameters` mapping of a batch request; only the three keys the
service reads are modelled, each absent when the caller omitted it. -/
structure BatchParams where
  tags : Option (List String) := none
  document_type : Option String := none
  is_public : Option Bool := none
deriving DecidableEq, Repr

/-- `JsonDocumentBatch` from `shrimp/models/json_document.py`. -/
structure JsonDocumentBatch where
  document_ids : List String
  operation : String
  parameters : BatchParams := {}
deriving DecidableEq, Repr

/-- The `operation_results` payload of `batch_operation`. -/
structure BatchResultData where
  success_count : Nat
  error_count : Nat
  details : List String
deriving DecidableEq, Repr

/-- The base filter of a batch mutation:
`{"_id": {"$in": valid_ids}, "project_id": project_id}`. -/
def baseQuery (project_id : String) (valid_ids : List String) (d : Doc) : Bool :=
  valid_ids.contains d.id && d.project_id == project_id

/-- Mongo `update_many`: apply `f` to every document matching `p`; the
reported `modified_count` counts only documents the update actually
changed. -/
def updateMany (p : Doc → Bool) (f : Doc → Doc) (docs : List Doc) :
    List Doc × Nat :=
  (docs.map (fun d => if p d then f d else d),
   (docs.filter (fun d => p d && decide (f d ≠ d))).length)

/-- The `$set` document of batch `update_tags`. -/
def setTags (new_tags : List String) (operator : String) (now : Nat) (d : Doc) : Doc :=
  { d with tags := new_tags, updated_at := now, updated_by := operator }

/-- The `$set` document of batch `update_type`. -/
def setType (new_type : String) (operator : String) (now : Nat) (d : Doc) : Doc :=
  { d with document_type := new_type, updated_at := now, updated_by := operator }

/-- The `$set` document of batch `set_public`. -/
def setPublic (is_public : Bool) (operator : String) (now : Nat) (d : Doc) : Doc :=
  { d with is_public := is_public, updated_at := now, updated_by := operator }

/-- `JsonDocumentService.batch_operation`.  Malformed identifiers are
silently dropped; an empty surviving set is a `ValidationError`; the four
operation kinds dispatch on the `operation` string, any other kind is a
`ValidationError`. -/
def batch_operation (docs : List Doc) (project_id : String)
    (batch : JsonDocumentBatch) (operator : String) (now : Nat) :
    CallResult BatchResultData :=
  let valid_ids := batch.document_ids.filter isValidObjectId
  if valid_ids.isEmpty then
    ⟨.validation_error "没有有效的文档ID", docs, []⟩
  else if batch.operation == "delete" then
    let removed := docs.filter (baseQuery project_id valid_ids)
    ⟨.success_response
       ⟨removed.length, 0, ["删除了 " ++ toString removed.length ++ " 个文档"]⟩
       "批量操作完成",
     docs.filter (fun d => ! baseQuery project_id valid_ids d),
     [StoreOp.deleteMany project_id]⟩
  else if batch.operation == "update_tags" then
    let new_tags := batch.parameters.tags.getD []
    let r := updateMany (baseQuery project_id valid_ids)
      (setTags new_tags operator now) docs
    ⟨.success_response
       ⟨r.2, 0, ["更新了 " ++ toString r.2 ++ " 个文档的标签"]⟩ "批量操作完成",
     r.1, [StoreOp.updateMany project_id]⟩
  else if batch.operation == "update_type" then
    match batch.parameters.document_type with
    | some t =>
        if t != "" && documentTypeValues.contains t then
          let r := updateMany (baseQuery project_id valid_ids)
            (setType t operator now) docs
          ⟨.success_response
             ⟨r.2, 0, ["更新了 " ++ toString r.2 ++ " 个文档的类型"]⟩ "批量操作完成",
           r.1, [StoreOp.updateMany project_id]⟩
        else
          ⟨.validation_error "无效的文档类型", docs, []⟩
    | none => ⟨.validation_error "无效的文档类型", docs, []⟩
  else if batch.operation == "set_public" then
    let is_public := batch.parameters.is_public.getD false
    let r := updateMany (baseQuery project_id valid_ids)
      (setPublic is_public operator now) docs
    ⟨.success_response
       ⟨r.2, 0, ["更新了 " ++ toString r.2 ++ " 个文档的公开状态"]⟩ "批量操作完成",
     r.1, [StoreOp.updateMany project_id]⟩
  else
    ⟨.validation_error ("不支持的批量操作: " ++ batch.operation), docs, []⟩

/-- `JsonDocumentCreate` after pydantic field validation. -/
structure JsonDocumentCreate where
  name : String
  description : Option String := none
  document_type : DocumentType := DocumentType.other
  content : String
  session_id : String
  tags : List String := []
  metadata : List (String × String) := []
  is_public : Bool := false
  schema_validation : Option String := none
deriving DecidableEq, Repr

/-- The `tags` field validator: reject more than 20 raw entries, then trim
each entry and drop the ones that trim to empty. -/
def validate_tags (v : List String) : Except String (List String) :=
  if v.length > 20 then Except.error "标签数量不能超过20个"
  else Except.ok ((v.map String.trim).filter (fun t => t != ""))

/-- Pydantic construction of `JsonDocumentCreate`: `Field` length bounds on
`name`, `description` and `session_id`, then the field validators (trim
`name` and `session_id`, validate `tags`). -/
def mkJsonDocumentCreate (name : String) (description : Option String)
    (document_type : DocumentType) (content : String) (session_id : String)
    (tags : List String) (metadata : List (String × String)) (is_public : Bool)
    (schema_validation : Option String) : Except String JsonDocumentCreate :=
  if name.length < 1 || name.length > 200 then
    Except.error "name长度不合法"
  else if (match description with
           | some s => decide (s.length > 1000)
           | none => false : Bool) then
    Except.error "description长度不合法"
  else if session_id.length < 1 || session_id.length > 100 then
    Except.error "session_id长度不合法"
  else
    match validate_tags tags with
    | Except.error e => Except.error e
    | Except.ok ts =>
        Except.ok ⟨name.trim, description, document_type, content,
                   session_id.trim, ts, metadata, is_public, schema_validation⟩

/-- The document `create_document` inserts (audit and stat fields
initialized, the store-assigned identifier attached). -/
def newDocumentData (project_id : String) (dc : JsonDocumentCreate)
    (created_by new_id : String) (now : Nat) : Doc :=
  { id := new_id, project_id := project_id, name := dc.name,
    description := dc.description, document_type := dc.document_type.value,
    content := dc.content, session_id := dc.session_id, tags := dc.tags,
    metadata := dc.metadata, is_public := dc.is_public,
    schema_validation := dc.schema_validation, created_at := now,
    updated_at := now, created_by := created_by, updated_by := created_by,
    access_count := 0, last_accessed_at := none }

/-- `JsonDocumentService.create_document`.  The schema-validation
collaborator is passed in as the two black-box calls of §4.5:
`checkSchema` (`Draft7Validator.check_schema`) and `validateContent`
(`jsonschema.validate`). -/
def create_document (docs : List Doc) (project_id : String)
    (dc : JsonDocumentCreate) (created_by new_id : String) (now : Nat)
    (checkSchema : String → Except String Unit)
    (validateContent : String → String → Except String Unit) : CallResult Doc :=
  match dc.schema_validation with
  | some schema =>
      match checkSchema schema with
      | Except.error e => ⟨.validation_error ("无效的JSON Schema: " ++ e), docs, []⟩
      | Except.ok _ =>
          match validateContent dc.content schema with
          | Except.error e =>
              ⟨.validation_error ("JSON Schema验证失败: " ++ e), docs, []⟩
          | Except.ok _ =>
              let doc := newDocumentData project_id dc created_by new_id now
              ⟨.success_response doc "文档创建成功", docs ++ [doc], [StoreOp.insertOne]⟩
  | none =>
      let doc := newDocumentData project_id dc created_by new_id now
      ⟨.success_response doc "文档创建成功", docs ++ [doc], [StoreOp.insertOne]⟩

/-- Whether a `ServiceResponse` is a success. -/
def isSuccess {α : Type} : ServiceResponse α → Bool
  | .success_response _ _ => true
  | _ => false

/-! ### Sample data used by concrete evaluations -/

/-- A well-formed ObjectId string. -/
def oid1 : String := "aaaaaaaaaaaaaaaaaaaaaaaa"

/-- A second well-formed ObjectId string. -/
def oid2 : String := "bbbbbbbbbbbbbbbbbbbbbbbb"

/-- A sample stored document under project `projA`. -/
def docA : Doc :=
  { id := oid1, project_id := "projA", name := "alpha doc",
    content := "Alpha Beta", session_id := "S1" }

/-- A sample stored document under project `projB`. -/
def docB : Doc :=
  { id := oid2, project_id := "projB", name := "beta doc",
    content := "gamma", session_id := "S2", is_public := true }

/-- Twenty-one non-empty tag strings. -/
def tags21 : List String := List.replicate 21 "t"

/-! ### Helper lemmas -/

/-- Splitting a list by the boolean `is_public` flag is exhaustive. -/
lemma filter_public_length (g : List Doc) :
    (g.filter (fun d => d.is_public)).length
      + (g.filter (fun d => !d.is_public)).length = g.length := by
  induction g with
  | nil => rfl
  | cons x xs ih =>
      cases hx : x.is_public <;> simp [List.filter_cons, hx] <;> omega

/-! ### Claim theorems -/

/-- C8: for both the project-level aggregation (`get_document_statistics`) and
the session-level aggregation (`get_session_statistics`), the returned
statistics satisfy `public_documents + private_documents = total_documents`,
and an empty matched set yields all-zero counts. -/
theorem C8_public_private_total (docs : List Doc) (project_id session_id : String) :
    (∀ s msg,
        (get_document_statistics docs project_id).resp
          = ServiceResponse.success_response s msg →
        s.public_documents + s.private_documents = s.total_documents
        ∧ (docs.filter (fun d => d.project_id == project_id) = [] →
            s.total_documents = 0 ∧ s.public_documents = 0
            ∧ s.private_documents = 0))
    ∧ (∀ s msg,
        (get_session_statistics docs project_id session_id).resp
          = ServiceResponse.success_response s msg →
        s.public_documents + s.private_documents = s.total_documents
        ∧ (docs.filter (matchSession project_id session_id) = [] →
            s.total_documents = 0 ∧ s.public_documents = 0
            ∧ s.private_documents = 0)) := by
  constructor
  · intro s msg h
    have hs : s = projectStatsOf docs project_id := by
      cases h; rfl
    subst hs
    unfold projectStatsOf
    by_cases hg : docs.filter (fun d => d.project_id == project_id) = []
    · simp [hg]
    · have : (docs.filter (fun d => d.project_id == project_id)).isEmpty = false := by
        simpa [List.isEmpty_iff] using hg
      simp only [this, Bool.false_eq_true, if_false]
      refine ⟨?_, fun hc => absurd hc hg⟩
      simpa using filter_public_length (docs.filter (fun d => d.project_id == project_id))
  · intro s msg h
    have hs : s = sessionStatsOf docs project_id session_id := by
      cases h; rfl
    subst hs
    unfold sessionStatsOf
    by_cases hg : docs.filter (matchSession project_id session_id) = []
    · simp [hg]
    · have hne : (docs.filter (matchSession project_id session_id)).isEmpty = false := by
        simpa [List.isEmpty_iff] using hg
      simp only [hne, Bool.false_eq_true, if_false]
      refine ⟨Nat.add_sub_cancel' ?_, fun hc => absurd hc hg⟩
      exact List.length_filter_le _ _

/-- Witness for C8 on a concrete two-document store. -/
theorem C8_public_private_total_witness :
    (get_document_statistics [docA, docB] "projB").resp
        = ServiceResponse.success_response (projectStatsOf [docA, docB] "projB")
            "获取统计信息成功"
    ∧ (projectStatsOf [docA, docB] "projB").public_documents
        + (projectStatsOf [docA, docB] "projB").private_documents
        = (projectStatsOf [docA, docB] "projB").total_documents :=
  ⟨rfl, ((C8_public_private_total [docA, docB] "projB" "S2").1
          (projectStatsOf [docA, docB] "projB") "获取统计信息成功" rfl).1⟩

/-- C10: `delete_session_documents` on a project/session pair with no
matching documents returns success with `deleted_count = 0` and the session
id (no `NotFound`, no error), leaves the store unchanged, and issues no
delete operation (its trace is the single find). -/
theorem C10_delete_session_no_match (docs : List Doc)
    (project_id session_id : String)
    (h : docs.filter (matchSession project_id session_id) = []) :
    (delete_session_documents docs project_id session_id).resp
        = ServiceResponse.success_response
            (⟨0, session_id, none⟩ : SessionDeleteData)
            ("会话 " ++ session_id ++ " 中没有找到文档")
    ∧ (delete_session_documents docs project_id session_id).store = docs
    ∧ (delete_session_documents docs project_id session_id).trace
        = [StoreOp.findMany project_id] := by
  refine ⟨?_, ?_, ?_⟩ <;> simp [delete_session_documents, h]

/-- Witness for C10 on a concrete store holding an unrelated document. -/
theorem C10_delete_session_no_match_witness :
    List.filter (matchSession "projA" "S9") [docB] = []
    ∧ ((delete_session_documents [docB] "projA" "S9").resp
        = ServiceResponse.success_response
            (⟨0, "S9", none⟩ : SessionDeleteData)
            ("会话 " ++ "S9" ++ " 中没有找到文档")
      ∧ (delete_session_documents [docB] "projA" "S9").store = [docB]
      ∧ (delete_session_documents [docB] "projA" "S9").trace
          = [StoreOp.findMany "projA"]) :=
  ⟨by decide, C10_delete_session_no_match [docB] "projA" "S9" (by decide)⟩

/-- C3 (code bug evidence): on an existing document, `get_document` with
`increment_access = true` issues two separate store calls — a `find_one`
followed by a second `update_one` for the same document — rather than one
single increment-and-set operation. -/
theorem C3_get_read_then_separate_update :
    (get_document [docA] "projA" oid1 true 5).trace
        = [StoreOp.findOne oid1 "projA", StoreOp.updateOne oid1]
    ∧ (get_document [docA] "projA" oid1 true 5).trace.length = 2 := by
  exact ⟨by decide, by decide⟩

/-- C4 (code bug evidence): batch `update_tags` writes the supplied list
verbatim, so a 21-entry list leaves a stored document with 21 tags,
violating the `tags.length <= 20` invariant that creation enforces. -/
theorem C4_batch_update_tags_exceeds_bound :
    (batch_operation [docA] "projA"
        ⟨[oid1], "update_tags", ⟨some tags21, none, none⟩⟩ "op" 7).store
      = [setTags tags21 "op" 7 docA]
    ∧ (setTags tags21 "op" 7 docA).tags.length = 21
    ∧ ¬ ((setTags tags21 "op" 7 docA).tags.length ≤ 20)
    ∧ (validate_tags tags21 = Except.error "标签数量不能超过20个") := by
  refine ⟨by decide, by decide, by decide, rfl⟩

/-- A guarded map leaves the documents outside the guard untouched, provided
the update does not move documents across the guard. -/
lemma filter_not_guarded_map (p : Doc → Bool) (f : Doc → Doc) (docs : List Doc)
    (hf : ∀ d, p (f d) = p d) :
    (docs.map (fun d => if p d then f d else d)).filter (fun d => ! p d)
      = docs.filter (fun d => ! p d) := by
  induction docs with
  | nil => rfl
  | cons x xs ih =>
      by_cases hx : p x = true
      · simp [List.filter_cons, hx, hf, ih]
      · simp only [Bool.not_eq_true] at hx
        simp [List.filter_cons, hx, ih]

/-- Documents a batch mutation touched stay inside the base query, so
membership in the resulting store together with the base query pins down the
updated fields. -/
lemma mem_guarded_map_of_base {p : Doc → Bool} {f : Doc → Doc} {docs : List Doc}
    {d : Doc}
    (hd : d ∈ docs.map (fun x => if p x then f x else x)) (hp : p d = true) :
    ∃ x, x ∈ docs ∧ p x = true ∧ d = f x := by
  obtain ⟨x, hx, hxd⟩ := List.mem_map.1 hd
  by_cases hpx : p x = true
  · exact ⟨x, hx, hpx, by simpa [hpx] using hxd.symm⟩
  · exfalso
    simp only [Bool.not_eq_true] at hpx
    rw [if_neg (by simp [hpx])] at hxd
    subst hxd
    exact absurd hp (by simp [hpx])

/-- C9: a batch `update_tags` request whose parameters lack the `tags` key
succeeds and overwrites the tags of every matched document with the empty
list. -/
theorem C9_update_tags_missing_key (docs : List Doc)
    (project_id operator : String) (ids : List String)
    (odt : Option String) (oip : Option Bool) (now : Nat)
    (hvalid : ids.filter isValidObjectId ≠ []) :
    isSuccess (batch_operation docs project_id
        ⟨ids, "update_tags", ⟨none, odt, oip⟩⟩ operator now).resp = true
    ∧ (batch_operation docs project_id
        ⟨ids, "update_tags", ⟨none, odt, oip⟩⟩ operator now).store
      = docs.map (fun d =>
          if baseQuery project_id (ids.filter isValidObjectId) d
          then setTags [] operator now d else d)
    ∧ ∀ d ∈ (batch_operation docs project_id
          ⟨ids, "update_tags", ⟨none, odt, oip⟩⟩ operator now).store,
        baseQuery project_id (ids.filter isValidObjectId) d = true →
        d.tags = [] ∧ d.updated_at = now ∧ d.updated_by = operator := by
  have hne : (ids.filter isValidObjectId).isEmpty = false := by
    simpa [List.isEmpty_iff] using hvalid
  have hstore : (batch_operation docs project_id
      ⟨ids, "update_tags", ⟨none, odt, oip⟩⟩ operator now).store
      = docs.map (fun d =>
          if baseQuery project_id (ids.filter isValidObjectId) d
          then setTags [] operator now d else d) := by
    simp [batch_operation, hne, updateMany]
  refine ⟨?_, hstore, ?_⟩
  · simp [batch_operation, hne, isSuccess]
  · intro d hd hp
    rw [hstore] at hd
    obtain ⟨x, _, hpx, rfl⟩ :=
      @mem_guarded_map_of_base (baseQuery project_id (ids.filter isValidObjectId))
        (setTags [] operator now) docs d hd hp
    exact ⟨rfl, rfl, rfl⟩

/-- Witness for C9: a concrete store and request with one malformed and one
well-formed identifier and no `tags` parameter. -/
theorem C9_update_tags_missing_key_witness :
    (List.filter isValidObjectId [oid1, "zz"] ≠ [])
    ∧ isSuccess (batch_operation [docA] "projA"
        ⟨[oid1, "zz"], "update_tags", ⟨none, none, none⟩⟩ "op" 7).resp = true :=
  ⟨by decide,
   (C9_update_tags_missing_key [docA] "projA" "op" [oid1, "zz"] none none 7
      (by decide)).1⟩

/-- C5: batch `update_type` rejects a missing or non-member `document_type`
parameter with a `ValidationError` and touches neither the store nor issues
any write; a member value succeeds and sets `document_type` plus the audit
fields on every matched document. -/
theorem C5_update_type_enum_validation (docs : List Doc)
    (project_id operator : String) (ids : List String) (params : BatchParams)
    (now : Nat) (hvalid : ids.filter isValidObjectId ≠ []) :
    (params.document_type = none →
        (batch_operation docs project_id ⟨ids, "update_type", params⟩
            operator now).resp
          = ServiceResponse.validation_error "无效的文档类型"
        ∧ (batch_operation docs project_id ⟨ids, "update_type", params⟩
            operator now).store = docs
        ∧ (batch_operation docs project_id ⟨ids, "update_type", params⟩
            operator now).trace = [])
    ∧ (∀ t, params.document_type = some t → t ∉ documentTypeValues →
        (batch_operation docs project_id ⟨ids, "update_type", params⟩
            operator now).resp
          = ServiceResponse.validation_error "无效的文档类型"
        ∧ (batch_operation docs project_id ⟨ids, "update_type", params⟩
            operator now).store = docs
        ∧ (batch_operation docs project_id ⟨ids, "update_type", params⟩
            operator now).trace = [])
    ∧ (∀ t, params.document_type = some t → t ∈ documentTypeValues →
        isSuccess (batch_operation docs project_id ⟨ids, "update_type", params⟩
            operator now).resp = true
        ∧ ∀ d ∈ (batch_operation docs project_id ⟨ids, "update_type", params⟩
              operator now).store,
            baseQuery project_id (ids.filter isValidObjectId) d = true →
            d.document_type = t ∧ d.updated_at = now
            ∧ d.updated_by = operator) := by
  have hne : (ids.filter isValidObjectId).isEmpty = false := by
    simpa [List.isEmpty_iff] using hvalid
  refine ⟨?_, ?_, ?_⟩
  · intro hdt
    refine ⟨?_, ?_, ?_⟩ <;> simp [batch_operation, hne, hdt]
  · intro t hdt hnm
    have hcond : ¬ (¬ t = "" ∧ t ∈ documentTypeValues) := fun h => hnm h.2
    refine ⟨?_, ?_, ?_⟩ <;> simp [batch_operation, hne, hdt, hcond]
  · intro t hdt hm
    have ht : ¬ t = "" := by
      simp [documentTypeValues, DocumentType.value] at hm
      rcases hm with rfl | rfl | rfl <;> decide
    have hstore : (batch_operation docs project_id ⟨ids, "update_type", params⟩
        operator now).store
        = docs.map (fun d =>
            if baseQuery project_id (ids.filter isValidObjectId) d
            then setType t operator now d else d) := by
      simp [batch_operation, hne, hdt, ht, hm, updateMany]
    refine ⟨by simp [batch_operation, hne, hdt, ht, hm, isSuccess], ?_⟩
    intro d hd hp
    rw [hstore] at hd
    obtain ⟨x, _, hpx, rfl⟩ :=
      @mem_guarded_map_of_base (baseQuery project_id (ids.filter isValidObjectId))
        (setType t operator now) docs d hd hp
    exact ⟨rfl, rfl, rfl⟩

/-- Witness for C5: a missing parameter is rejected and a member value
succeeds, on a concrete one-document store. -/
theorem C5_update_type_enum_validation_witness :
    ((batch_operation [docA] "projA"
        ⟨[oid1], "update_type", ⟨none, none, none⟩⟩ "op" 7).resp
      = ServiceResponse.validation_error "无效的文档类型")
    ∧ isSuccess (batch_operation [docA] "projA"
        ⟨[oid1], "update_type", ⟨none, some "session_state", none⟩⟩ "op" 7).resp
        = true :=
  ⟨((C5_update_type_enum_validation [docA] "projA" "op" [oid1]
      ⟨none, none, none⟩ 7 (by decide)).1 rfl).1,
   ((C5_update_type_enum_validation [docA] "projA" "op" [oid1]
      ⟨none, some "session_state", none⟩ 7 (by decide)).2.2
      "session_state" rfl (by decide)).1⟩

/-- C6: malformed identifiers are silently dropped from a batch request (the
outcome is the same as if only the well-formed identifiers had been sent);
when no well-formed identifier survives the request fails with
`ValidationError` and nothing is written; and in every case the documents
outside the surviving-identifier/project scope are left untouched. -/
theorem C6_batch_malformed_ids (docs : List Doc) (project_id operator : String)
    (ids : List String) (op : String) (params : BatchParams) (now : Nat) :
    batch_operation docs project_id ⟨ids.filter isValidObjectId, op, params⟩
        operator now
      = batch_operation docs project_id ⟨ids, op, params⟩ operator now
    ∧ (ids.filter isValidObjectId = [] →
        (batch_operation docs project_id ⟨ids, op, params⟩ operator now).resp
          = ServiceResponse.validation_error "没有有效的文档ID"
        ∧ (batch_operation docs project_id ⟨ids, op, params⟩ operator now).store
            = docs
        ∧ (batch_operation docs project_id ⟨ids, op, params⟩ operator now).trace
            = [])
    ∧ (batch_operation docs project_id ⟨ids, op, params⟩ operator now).store.filter
          (fun d => ! baseQuery project_id (ids.filter isValidObjectId) d)
        = docs.filter
            (fun d => ! baseQuery project_id (ids.filter isValidObjectId) d) := by
  have hff : (ids.filter isValidObjectId).filter isValidObjectId
      = ids.filter isValidObjectId := by
    simp [List.filter_filter]
  refine ⟨?_, ?_, ?_⟩
  · simp only [batch_operation, hff]
  · intro h
    refine ⟨?_, ?_, ?_⟩ <;> simp [batch_operation, h]
  · by_cases hV : ids.filter isValidObjectId = []
    · simp [batch_operation, hV]
    · have hne : (ids.filter isValidObjectId).isEmpty = false := by
        simpa [List.isEmpty_iff] using hV
      by_cases h1 : op = "delete"
      · have hstore : (batch_operation docs project_id ⟨ids, op, params⟩
            operator now).store
            = docs.filter
                (fun d => ! baseQuery project_id (ids.filter isValidObjectId) d) := by
          simp [batch_operation, hne, h1]
        rw [hstore, List.filter_filter]
        simp
      · by_cases h2 : op = "update_tags"
        · have hstore : (batch_operation docs project_id ⟨ids, op, params⟩
              operator now).store
              = docs.map (fun d =>
                  if baseQuery project_id (ids.filter isValidObjectId) d
                  then setTags (params.tags.getD []) operator now d else d) := by
            simp [batch_operation, hne, h1, h2, updateMany]
          rw [hstore]
          exact filter_not_guarded_map _ _ _ (fun d => rfl)
        · by_cases h3 : op = "update_type"
          · cases hdt : params.document_type with
            | none =>
                have hstore : (batch_operation docs project_id ⟨ids, op, params⟩
                    operator now).store = docs := by
                  simp [batch_operation, hne, h1, h2, h3, hdt]
                rw [hstore]
            | some t =>
                by_cases hcond : ¬ t = "" ∧ t ∈ documentTypeValues
                · have hstore : (batch_operation docs project_id ⟨ids, op, params⟩
                      operator now).store
                      = docs.map (fun d =>
                          if baseQuery project_id (ids.filter isValidObjectId) d
                          then setType t operator now d else d) := by
                    simp [batch_operation, hne, h1, h2, h3, hdt, hcond.1,
                      hcond.2, updateMany]
                  rw [hstore]
                  exact filter_not_guarded_map _ _ _ (fun d => rfl)
                · have hstore : (batch_operation docs project_id ⟨ids, op, params⟩
                      operator now).store = docs := by
                    simp [batch_operation, hne, h1, h2, h3, hdt, hcond]
                  rw [hstore]
          · by_cases h4 : op = "set_public"
            · have hstore : (batch_operation docs project_id ⟨ids, op, params⟩
                  operator now).store
                  = docs.map (fun d =>
                      if baseQuery project_id (ids.filter isValidObjectId) d
                      then setPublic (params.is_public.getD false) operator now d
                      else d) := by
                simp [batch_operation, hne, h1, h2, h3, h4, updateMany]
              rw [hstore]
              exact filter_not_guarded_map _ _ _ (fun d => rfl)
            · have hstore : (batch_operation docs project_id ⟨ids, op, params⟩
                  operator now).store = docs := by
                simp [batch_operation, hne, h1, h2, h3, h4]
              rw [hstore]

/-- Witness for C6: one malformed and one well-formed identifier, kind
`set_public`, on a concrete two-document store. -/
theorem C6_batch_malformed_ids_witness :
    (batch_operation [docA, docB] "projA"
        ⟨List.filter isValidObjectId ["zz", oid1], "set_public",
          ⟨none, none, some true⟩⟩ "op" 9
      = batch_operation [docA, docB] "projA"
          ⟨["zz", oid1], "set_public", ⟨none, none, some true⟩⟩ "op" 9)
    ∧ ((batch_operation [docA, docB] "projA"
          ⟨["zz"], "set_public", ⟨none, none, some true⟩⟩ "op" 9).resp
        = ServiceResponse.validation_error "没有有效的文档ID") :=
  ⟨(C6_batch_malformed_ids [docA, docB] "projA" "op" ["zz", oid1] "set_public"
      ⟨none, none, some true⟩ 9).1,
   ((C6_batch_malformed_ids [docA, docB] "projA" "op" ["zz"] "set_public"
      ⟨none, none, some true⟩ 9).2.1 (by decide)).1⟩

/-- C7: the content search returns exactly the documents of the project whose
serialized content contains every supplied term as a case-insensitive literal
substring — every returned document matches all terms, at most `limit` are
returned, and whenever the matching set fits within the limit every matching
document is returned. -/
theorem C7_content_search_characterization (docs : List Doc)
    (project_id : String) (search_terms : List String) (limit : Nat)
    (_hne : search_terms ≠ []) :
    ∀ res msg,
      (search_documents_by_content docs project_id search_terms none limit).resp
        = ServiceResponse.success_response res msg →
      (∀ d ∈ res, d.project_id = project_id
        ∧ ∀ term ∈ search_terms, regexMatchCI d.content term = true)
      ∧ res.length ≤ limit
      ∧ ((docs.filter (searchPred project_id none search_terms)).length ≤ limit →
          ∀ d ∈ docs, d.project_id = project_id →
            (∀ term ∈ search_terms, regexMatchCI d.content term = true) →
            d ∈ res) := by
  intro res msg h
  dsimp only [search_documents_by_content] at h
  cases h
  refine ⟨?_, ?_, ?_⟩
  · intro d hd
    have hms : d ∈ (docs.filter
        (searchPred project_id none search_terms)).mergeSort
          (fun a b => decide (b.updated_at ≤ a.updated_at)) :=
      List.mem_of_mem_take hd
    have hdm : d ∈ docs.filter (searchPred project_id none search_terms) :=
      (List.mergeSort_perm _ _).mem_iff.mp hms
    have hpred := (List.mem_filter.mp hdm).2
    simpa [searchPred] using hpred
  · exact List.length_take_le limit _
  · intro hlen d hd hproj hterms
    have hpred : searchPred project_id none search_terms d = true := by
      simp [searchPred, hproj]
      intro t ht
      exact hterms t ht
    have hdm : d ∈ docs.filter (searchPred project_id none search_terms) :=
      List.mem_filter.mpr ⟨hd, hpred⟩
    have hms : d ∈ (docs.filter
        (searchPred project_id none search_terms)).mergeSort
          (fun a b => decide (b.updated_at ≤ a.updated_at)) :=
      (List.mergeSort_perm _ _).mem_iff.mpr hdm
    have hlen' : ((docs.filter
        (searchPred project_id none search_terms)).mergeSort
          (fun a b => decide (b.updated_at ≤ a.updated_at))).length ≤ limit := by
      rw [(List.mergeSort_perm _ _).length_eq]
      exact hlen
    rw [List.take_of_length_le hlen']
    exact hms

/-- Witness for C7 on a concrete store: the search for both terms matches
`docA` (content `"Alpha Beta"`) case-insensitively and excludes `docB`. -/
theorem C7_content_search_characterization_witness :
    ((search_documents_by_content [docA, docB] "projA" ["alpha", "beta"]
        none 20).resp
      = ServiceResponse.success_response [docA] "搜索到 1 个相关文档")
    ∧ (docA.project_id = "projA"
        ∧ ∀ term ∈ ["alpha", "beta"], regexMatchCI docA.content term = true) := by
  have hfil : List.filter (searchPred "projA" none ["alpha", "beta"])
      [docA, docB] = [docA] := by decide
  have hresp : (search_documents_by_content [docA, docB] "projA"
      ["alpha", "beta"] none 20).resp
      = ServiceResponse.success_response [docA] "搜索到 1 个相关文档" := by
    simp only [search_documents_by_content, hfil, List.mergeSort_singleton,
      List.take_succ_cons, List.take_nil, List.length_singleton]
    rfl
  exact ⟨hresp,
    (C7_content_search_characterization [docA, docB] "projA" ["alpha", "beta"]
      20 (by decide) [docA] "搜索到 1 个相关文档" hresp).1 docA (by simp)⟩

/-- Under unique `_id`s, the id-only `update_one` of an access-counted read
bumps exactly the document the scoped `find_one` located, and preserves the
stored id sequence. -/
lemma get_step (docs : List Doc) (project_id document_id : String) (d : Doc)
    (now : Nat) (hnd : (docs.map Doc.id).Nodup)
    (hfind : docs.find? (getPred project_id document_id) = some d) :
    (updateFirst (fun x => x.id == document_id) (bumpAccess now) docs).find?
        (getPred project_id document_id) = some (bumpAccess now d)
    ∧ (updateFirst (fun x => x.id == document_id) (bumpAccess now) docs).map Doc.id
        = docs.map Doc.id := by
  induction docs with
  | nil => simp at hfind
  | cons x xs ih =>
      rw [List.find?_cons] at hfind
      rw [List.map_cons, List.nodup_cons] at hnd
      by_cases hx : getPred project_id document_id x = true
      · rw [hx] at hfind
        have hdx : d = x := by
          simpa using hfind.symm
        subst hdx
        have hxpred := hx
        simp only [getPred, Bool.and_eq_true, beq_iff_eq] at hxpred
        have hxid : (d.id == document_id) = true := by
          simp [hxpred.1]
        have hbump : getPred project_id document_id (bumpAccess now d) = true := by
          simpa [getPred, bumpAccess] using hx
        constructor
        · simp [updateFirst, hxid, List.find?_cons, hbump]
        · simp [updateFirst, hxid, bumpAccess]
      · have hxb : getPred project_id document_id x = false := by
          simpa using hx
        rw [hxb] at hfind
        have hdmem : d ∈ xs := List.mem_of_find?_eq_some hfind
        have hdid : d.id = document_id := by
          have hp := List.find?_some hfind
          simp only [getPred, Bool.and_eq_true, beq_iff_eq] at hp
          exact hp.1
        have hxid : (x.id == document_id) = false := by
          apply Bool.eq_false_iff.mpr
          intro hcon
          have hxeq : x.id = document_id := by simpa using hcon
          have hxd : x.id = d.id := hxeq.trans hdid.symm
          exact hnd.1 (hxd ▸ List.mem_map_of_mem Doc.id hdmem)
        have ihr := ih hnd.2 hfind
        constructor
        · simp [updateFirst, hxid, List.find?_cons, hxb, ihr.1]
        · simp [updateFirst, hxid, ihr.2]

/-- Iterating the access bump adds exactly `N` to `access_count`. -/
lemma iterate_bump_access_count (now : Nat) (d : Doc) (N : Nat) :
    ((bumpAccess now)^[N] d).access_count = d.access_count + N := by
  induction N with
  | zero => rfl
  | succ n ih =>
      rw [Function.iterate_succ_apply']
      simp [bumpAccess, ih]
      omega

/-- After `N` sequential access-counted reads the stored document is the
original after `N` bumps. -/
lemma getIter_find (project_id document_id : String) (now : Nat) (N : Nat) :
    ∀ (docs : List Doc) (d : Doc),
      isValidObjectId document_id = true →
      (docs.map Doc.id).Nodup →
      docs.find? (getPred project_id document_id) = some d →
      (getIter project_id document_id now N docs).find?
          (getPred project_id document_id)
        = some ((bumpAccess now)^[N] d) := by
  induction N with
  | zero =>
      intro docs d _ _ hfind
      simpa [getIter] using hfind
  | succ n ih =>
      intro docs d hid hnd hfind
      have hstore : (get_document docs project_id document_id true now).store
          = updateFirst (fun x => x.id == document_id) (bumpAccess now) docs := by
        simp [get_document, hid, hfind]
      have hstep := get_step docs project_id document_id d now hnd hfind
      have hnd' : ((get_document docs project_id document_id true now).store.map
          Doc.id).Nodup := by
        rw [hstore, hstep.2]
        exact hnd
      have hfind' : (get_document docs project_id document_id true now).store.find?
          (getPred project_id document_id) = some (bumpAccess now d) := by
        rw [hstore]
        exact hstep.1
      have hrec : getIter project_id document_id now (n + 1) docs
          = getIter project_id document_id now n
              (get_document docs project_id document_id true now).store := rfl
      have hih := ih (get_document docs project_id document_id true now).store
        (bumpAccess now d) hid hnd' hfind'
      rw [hrec, hih, Function.iterate_succ_apply]

/-- C2: an access-counted read returns the post-increment document (counter
bumped by exactly 1, `last_accessed_at` set) and stores exactly that update;
`N` sequential such reads starting from `access_count = 0` leave the stored
counter at `N`; a read with `increment_access = false` changes nothing. -/
theorem C2_access_count_increment (docs : List Doc)
    (project_id document_id : String) (d : Doc) (now N : Nat)
    (hid : isValidObjectId document_id = true)
    (hnd : (docs.map Doc.id).Nodup)
    (hfind : docs.find? (getPred project_id document_id) = some d)
    (hzero : d.access_count = 0) :
    (get_document docs project_id document_id true now).resp
      = ServiceResponse.success_response (bumpAccess now d) "获取文档成功"
    ∧ (bumpAccess now d).access_count = d.access_count + 1
    ∧ (bumpAccess now d).last_accessed_at = some now
    ∧ (get_document docs project_id document_id true now).store.find?
        (getPred project_id document_id) = some (bumpAccess now d)
    ∧ (getIter project_id document_id now N docs).find?
        (getPred project_id document_id) = some ((bumpAccess now)^[N] d)
    ∧ ((bumpAccess now)^[N] d).access_count = N
    ∧ (get_document docs project_id document_id false now).resp
        = ServiceResponse.success_response d "获取文档成功"
    ∧ (get_document docs project_id document_id false now).store = docs := by
  have hstore : (get_document docs project_id document_id true now).store
      = updateFirst (fun x => x.id == document_id) (bumpAccess now) docs := by
    simp [get_document, hid, hfind]
  refine ⟨?_, rfl, rfl, ?_, ?_, ?_, ?_, ?_⟩
  · simp [get_document, hid, hfind]
  · rw [hstore]
    exact (get_step docs project_id document_id d now hnd hfind).1
  · exact getIter_find project_id document_id now N docs d hid hnd hfind
  · rw [iterate_bump_access_count, hzero, Nat.zero_add]
  · simp [get_document, hid, hfind]
  · simp [get_document, hid, hfind]

/-- Witness for C2: three sequential access-counted reads of a concrete
one-document store leave the stored counter at 3. -/
theorem C2_access_count_increment_witness :
    (isValidObjectId oid1 = true)
    ∧ (List.find? (getPred "projA" oid1) [docA] = some docA)
    ∧ ((getIter "projA" oid1 5 3 [docA]).find? (getPred "projA" oid1)
        = some ((bumpAccess 5)^[3] docA))
    ∧ ((bumpAccess 5)^[3] docA).access_count = 3 :=
  ⟨by decide, by decide,
   (C2_access_count_increment [docA] "projA" oid1 docA 5 3 (by decide)
      (by decide) (by decide) rfl).2.2.2.2.1,
   (C2_access_count_increment [docA] "projA" oid1 docA 5 3 (by decide)
      (by decide) (by decide) rfl).2.2.2.2.2.1⟩

/-- Membership in a sorted, skipped, truncated page implies membership in the
underlying list. -/
lemma mem_of_mem_sorted_page {l : List Doc} {sort_by : String} {sort_order : Int}
    {skip limit : Nat} {d : Doc}
    (hd : d ∈ ((sortDocs sort_by sort_order l).drop skip).take limit) : d ∈ l := by
  have h2 := List.mem_of_mem_drop (List.mem_of_mem_take hd)
  unfold sortDocs at h2
  exact (List.mergeSort_perm l _).mem_iff.mp h2

/-- A document whose id occurs once and that every `p`-satisfying document
differs from in `project_id` can be removed without changing the
`p`-filtered set. -/
lemma filter_ignore_foreign (docs : List Doc) (d : Doc) (p : Doc → Bool)
    (hnd : (docs.map Doc.id).Nodup) (hdmem : d ∈ docs)
    (hp : ∀ x, p x = true → x.project_id ≠ d.project_id) :
    (docs.filter (fun x => x.id != d.id)).filter p = docs.filter p := by
  rw [List.filter_filter]
  apply List.filter_congr
  intro x hx
  by_cases hpx : p x = true
  · have hxd : x.id ≠ d.id := by
      intro he
      have hxe : x = d := List.inj_on_of_nodup_map hnd hx hdmem he
      exact hp x hpx (by rw [hxe])
    simp [hpx, hxd]
  · have hpx' : p x = false := by simpa using hpx
    simp [hpx']

/-- C1: a document of project A is invisible to every operation scoped to a
distinct project B — `get` and `delete` answer `NotFound` without touching
the store, no query returns it, and both statistics aggregations are
unchanged by its removal (it is never counted). -/
theorem C1_tenant_isolation (docs : List Doc) (project_a project_b : String)
    (d : Doc) (hAB : project_a ≠ project_b) (hdmem : d ∈ docs)
    (hproj : d.project_id = project_a) (hid : isValidObjectId d.id = true)
    (hnd : (docs.map Doc.id).Nodup) :
    (∀ increment_access now,
        (get_document docs project_b d.id increment_access now).resp
          = ServiceResponse.not_found "文档不存在"
        ∧ (get_document docs project_b d.id increment_access now).store = docs)
    ∧ ((delete_document docs project_b d.id).resp
          = ServiceResponse.not_found "文档不存在"
        ∧ (delete_document docs project_b d.id).store = docs)
    ∧ (∀ q res msg, (list_documents docs project_b q).resp
          = ServiceResponse.success_response res msg → d ∉ res)
    ∧ (∀ search_terms document_type limit res msg,
        (search_documents_by_content docs project_b search_terms document_type
            limit).resp = ServiceResponse.success_response res msg → d ∉ res)
    ∧ (∀ session_id document_type skip limit sort_by sort_order res msg,
        (get_documents_by_session docs project_b session_id document_type skip
            limit sort_by sort_order).resp
          = ServiceResponse.success_response res msg → d ∉ res)
    ∧ (projectStatsOf docs project_b
        = projectStatsOf (docs.filter (fun x => x.id != d.id)) project_b)
    ∧ (∀ session_id, sessionStatsOf docs project_b session_id
        = sessionStatsOf (docs.filter (fun x => x.id != d.id)) project_b
            session_id) := by
  have hBA : project_b ≠ project_a := fun h => hAB h.symm
  have hnone : docs.find? (getPred project_b d.id) = none := by
    rw [List.find?_eq_none]
    intro x hx hpx
    simp only [getPred, Bool.and_eq_true, beq_iff_eq] at hpx
    have hxe : x = d := List.inj_on_of_nodup_map hnd hx hdmem hpx.1
    rw [hxe, hproj] at hpx
    exact hBA hpx.2.symm
  refine ⟨?_, ?_, ?_, ?_, ?_, ?_, ?_⟩
  · intro increment_access now
    constructor <;> simp [get_document, hid, hnone]
  · constructor <;> simp [delete_document, hid, hnone]
  · intro q res msg h
    dsimp only [list_documents] at h
    cases h
    intro hdin
    have hdm := List.mem_filter.mp (mem_of_mem_sorted_page hdin)
    have hpred := hdm.2
    simp only [listQueryPred, Bool.and_eq_true, beq_iff_eq] at hpred
    exact hBA (hproj ▸ hpred.1.1.1.1.1.1.1.1.1.1).symm
  · intro search_terms document_type limit res msg h
    dsimp only [search_documents_by_content] at h
    cases h
    intro hdin
    have hdm := List.mem_filter.mp
      ((List.mergeSort_perm _ _).mem_iff.mp (List.mem_of_mem_take hdin))
    have hpred := hdm.2
    simp only [searchPred, Bool.and_eq_true, beq_iff_eq] at hpred
    exact hBA (hproj ▸ hpred.1.1).symm
  · intro session_id document_type skip limit sort_by sort_order res msg h
    dsimp only [get_documents_by_session] at h
    cases h
    intro hdin
    have hdm := List.mem_filter.mp (mem_of_mem_sorted_page hdin)
    have hpred := hdm.2
    simp only [matchSession, Bool.and_eq_true, beq_iff_eq] at hpred
    exact hBA (hproj ▸ hpred.1.1).symm
  · have hg := filter_ignore_foreign docs d
      (fun x => x.project_id == project_b) hnd hdmem
      (fun x hx => by
        simp only [beq_iff_eq] at hx
        rw [hx, hproj]
        exact hBA)
    unfold projectStatsOf
    rw [hg]
  · intro session_id
    have hg := filter_ignore_foreign docs d
      (matchSession project_b session_id) hnd hdmem
      (fun x hx => by
        simp only [matchSession, Bool.and_eq_true, beq_iff_eq] at hx
        rw [hx.1, hproj]
        exact hBA)
    unfold sessionStatsOf
    rw [hg]

/-- Witness for C1: `docA` (project `projA`) is invisible to project
`projB` on a concrete two-document store. -/
theorem C1_tenant_isolation_witness :
    ((get_document [docA, docB] "projB" oid1 true 3).resp
        = ServiceResponse.not_found "文档不存在"
      ∧ (get_document [docA, docB] "projB" oid1 true 3).store = [docA, docB])
    ∧ ((delete_document [docA, docB] "projB" oid1).resp
        = ServiceResponse.not_found "文档不存在")
    ∧ (projectStatsOf [docA, docB] "projB"
        = projectStatsOf
            (List.filter (fun x => x.id != docA.id) [docA, docB]) "projB") :=
  ⟨(C1_tenant_isolation [docA, docB] "projA" "projB" docA (by decide)
      (by simp) rfl (by decide) (by decide)).1 true 3,
   ((C1_tenant_isolation [docA, docB] "projA" "projB" docA (by decide)
      (by simp) rfl (by decide) (by decide)).2.1).1,
   (C1_tenant_isolation [docA, docB] "projA" "projB" docA (by decide)
      (by simp) rfl (by decide) (by decide)).2.2.2.2.2.1⟩

